import Mathlib

/-!
A shallow embedding of the modmail thread-lifecycle and message-routing core
of `src/modmail/modmail.py` (class `ModMail`), together with theorems about
its behaviour.

Modelling conventions:
* Discord ids (users, guilds, channels, roles) are `Nat`.
* Timestamps (`datetime.utcnow()`, `message.created_at`, account/join times)
  are `Int` seconds; differences mirror `total_seconds()`.
* `uuid.uuid4().hex[:8]` in `_get_thread_id` is modelled by a fresh-nonce
  counter carried in the state (`nextNonce`): each call yields a distinct
  opaque token, which is all the code relies on.
* Red-DiscordBot `Config` storage is modelled explicitly: custom "Thread"
  records as an insertion-ordered association list (the code iterates them
  via `.all()`), "UserConversations" and per-user records as total maps with
  the registered defaults, and the guild/global scopes likewise.
* Calls into Discord (channel creation, message sends, renames, deletions,
  modlog cases) and hook publications are recorded as an `Effect` trace.
  Channel objects provisioned by `_create_new_thread` are registered in
  `createdChannels` so that `guild.get_channel` can resolve them later;
  close-time archival/deletion of the external surface is recorded as an
  effect only, since every modelled control path re-reads channels solely
  through the active-thread pointer or after a status check, both of which
  the close path resets first.
-/

namespace Modmail

/-- Thread status strings of `modmail.py` (`"open"`, `"closed"`, `"archived"`).
`opened` models the string `"open"`. -/
inductive ThreadStatus where
  | opened
  | closed
  | archived
deriving DecidableEq, Repr

/-- The opaque thread id `f"{user_id}-{guild_id}-{uuid.uuid4().hex[:8]}"`
produced by `_get_thread_id` (lines 490-492): user id, guild id, and a fresh
token modelled as a nonce. -/
structure ThreadKey where
  userId : Nat
  guildId : Nat
  nonce : Nat
deriving DecidableEq, Repr

/-- The `default_thread` record (lines 137-158), restricted to the fields the
routing/lifecycle core reads or writes.  The presentation-only fields
(priority, category, staff assignment, escalation, tags, notes, metadata) are
registered with defaults but are never touched by the modelled paths, so they
are omitted. -/
structure ThreadData where
  userId : Option Nat := none
  channelId : Option Nat := none
  guildId : Option Nat := none
  createdAt : Option Int := none
  closedAt : Option Int := none
  status : ThreadStatus := ThreadStatus.opened
  participants : List Nat := []
  messageCount : Nat := 0
  closeReason : Option String := none
  closedBy : Option Nat := none
deriving DecidableEq, Repr

/-- The "UserConversations" custom record (line 179):
`thread_history=[], active_thread=None`.  Note the code stores a channel id
in `active_thread` (line 539). -/
structure ConvData where
  threadHistory : List ThreadKey := []
  activeThread : Option Nat := none
deriving DecidableEq, Repr

/-- The `default_user` record (lines 126-134), minus free-form notes. -/
structure UserRecord where
  blocked : Bool := false
  blockReason : Option String := none
  blockedAt : Option Int := none
  blockedBy : Option Nat := none
  totalThreads : Nat := 0
  lastThreadAt : Option Int := none
deriving DecidableEq, Repr

/-- An external Discord channel handle: id plus name (the code branches on
`channel.name`). -/
structure Channel where
  id : Nat
  name : String
deriving DecidableEq, Repr

/-- The slice of a `discord.Guild` the core consults: existing channels,
which channel ids are category channels, the member list with join times,
the bot member id (`guild.me`, the close actor used by the reclaimer), and
whether the bot may create channels (line 550 `discord.Forbidden`). -/
structure Guild where
  id : Nat
  channelList : List Channel := []
  categories : List Nat := []
  members : List (Nat × Int) := []
  meId : Nat := 0
  createOk : Bool := true
deriving Repr

/-- The slice of a `discord.User` the core consults. -/
structure UserProfile where
  id : Nat
  name : String := "user"
  discriminator : String := "0000"
  createdAt : Int := 0
  bot : Bool := false
deriving DecidableEq, Repr

/-- `auto_response` guild config (lines 89-98); the embed sub-config only
changes presentation, not whether a response is sent. -/
structure AutoResponseCfg where
  enabled : Bool := true
  message : String := "Thank you for contacting us! A staff member will be with you shortly."
deriving DecidableEq, Repr

/-- `thread_settings` guild config (lines 99-105). -/
structure ThreadSettings where
  autoCloseAfter : Int := 7200
  requireCloseReason : Bool := true
  notifyUserOnClose : Bool := true
  deleteOnClose : Bool := false
  closeConfirmation : Bool := true
deriving DecidableEq, Repr

/-- `user_requirements` guild config (lines 106-111). -/
structure UserRequirements where
  minAccountAge : Int := 86400
  minServerAge : Int := 0
  requireServerMember : Bool := false
deriving DecidableEq, Repr

/-- `rate_limiting` guild config (lines 112-117). -/
structure RateLimitCfg where
  enabled : Bool := true
  maxMessages : Nat := 5
  timeWindow : Int := 300
  cooldownMessage : String := "You are sending messages too quickly. Please wait before sending another message."
deriving DecidableEq, Repr

/-- The `default_guild` config (lines 83-123), restricted to the fields the
core reads. -/
structure GuildConfig where
  enabled : Bool := false
  categoryId : Option Nat := none
  staffRoles : List Nat := []
  blockedUsers : List Nat := []
  autoResponse : AutoResponseCfg := {}
  threadSettings : ThreadSettings := {}
  userRequirements : UserRequirements := {}
  rateLimiting : RateLimitCfg := {}
deriving DecidableEq, Repr

/-- Read-only environment: the bot's guilds, the per-guild configuration, and
which user ids `bot.get_user` resolves. -/
structure Env where
  guilds : List Guild := []
  guildCfg : Nat → GuildConfig := fun _ => {}
  knownUsers : List Nat := []

/-- The mutable state of the cog: Thread records (insertion-ordered, as Red
Config iterates them), conversation pointers, user records, the global block
map and thread counter, the in-memory `self.rate_limits` map, the channels
provisioned by the cog, and the fresh-token/channel-id supplies. -/
structure St where
  threads : List ((Nat × ThreadKey) × ThreadData) := []
  convs : Nat × Nat → ConvData := fun _ => {}
  users : Nat → UserRecord := fun _ => {}
  globalBlocked : List Nat := []
  totalThreadsCreated : Nat := 0
  rateLimits : Nat × Nat → List Int := fun _ => []
  createdChannels : List (Nat × Channel) := []
  nextNonce : Nat := 0
  nextChannelId : Nat := 100

/-- Kinds of direct messages the cog sends to a user. -/
inductive DMKind where
  | autoResponse
  | cooldown (msg : String)
  | threadCreationFailed
  | processingError
  | threadClosedNotice
  | staffReply
deriving DecidableEq, Repr

/-- Externally observable actions: DMs to users, messages into thread
channels, hook publications, modlog cases, channel provisioning/surface
operations, and command replies in the invoking channel. -/
inductive Effect where
  | dmUser (userId : Nat) (kind : DMKind)
  | forwardToThread (channelId : Nat)
  | channelNotice (channelId : Nat)
  | hookFired (name : String)
  | modlogCase (kind : String)
  | channelCreated (channelId : Nat) (name : String)
  | channelDeleted (channelId : Nat)
  | channelRenamed (channelId : Nat) (newName : String)
  | ctxMessage (text : String)
deriving DecidableEq, Repr

/-- The route outcome of an inbound DM, one label per return site of
`on_message_without_command` / `_process_modmail_message`. -/
inductive RouteResult where
  | ignored
  | noTarget
  | blocked
  | rateLimited (msg : String)
  | delivered
  | deliveryFailed
deriving DecidableEq, Repr

/-- The outcome of the `modmail close` command, one label per return site of
`modmail_close` (lines 839-885). -/
inductive CloseResult where
  | notModmailChannel
  | noThreadData
  | validationError
  | cancelled
  | closed
deriving DecidableEq, Repr

/-- Pointwise update of a total map. -/
def upd {α β : Type} [DecidableEq α] (f : α → β) (k : α) (v : β) : α → β :=
  fun x => if x = k then v else f x

/-- The channels visible in a guild: its pre-existing channels plus those the
cog provisioned there (`createdChannels` registry `cc`). -/
def channelsOf (g : Guild) (cc : List (Nat × Channel)) : List Channel :=
  g.channelList ++ (cc.filter (fun e => decide (e.1 = g.id))).map (fun e => e.2)

/-- `guild.get_channel` against an explicit provisioned-channel registry. -/
def getChannelL (g : Guild) (cc : List (Nat × Channel)) (cid : Nat) : Option Channel :=
  (channelsOf g cc).find? (fun c => decide (c.id = cid))

/-- `guild.get_channel` in a given state. -/
def getChannel (g : Guild) (s : St) (cid : Nat) : Option Channel :=
  getChannelL g s.createdChannels cid

/-- `guild.get_member`, returning the member's join time. -/
def getMember (g : Guild) (uid : Nat) : Option Int :=
  (g.members.find? (fun m => decide (m.1 = uid))).map (fun m => m.2)

/-- Raw lookup of a Thread record by its composite key. -/
def threadLookup (s : St) (k : Nat × ThreadKey) : Option ThreadData :=
  (s.threads.find? (fun e => decide (e.1 = k))).map (fun e => e.2)

/-- `self.config.custom("Thread", guild_id, thread_id).all()`: the stored
record, or the registered defaults when the key was never written. -/
def getThreadData (s : St) (guildId : Nat) (tid : ThreadKey) : ThreadData :=
  (threadLookup s (guildId, tid)).getD {}

/-- Write a Thread record: overwrite in place when the key exists, else
append (Red Config keeps insertion order). -/
def setThreadData (s : St) (guildId : Nat) (tid : ThreadKey) (d : ThreadData) : St :=
  if (s.threads.find? (fun e => decide (e.1 = (guildId, tid)))).isSome then
    { s with threads := s.threads.map (fun e => if e.1 = (guildId, tid) then (e.1, d) else e) }
  else
    { s with threads := s.threads ++ [((guildId, tid), d)] }

/-- `_update_thread_data` (lines 641-644): read the defaults-merged record,
apply the update, write the whole record back. -/
def updateThreadData (s : St) (guildId : Nat) (tid : ThreadKey)
    (patch : ThreadData → ThreadData) : St :=
  setThreadData s guildId tid (patch (getThreadData s guildId tid))

/-- `_get_thread_id` (lines 490-492): a freshly generated opaque id on every
call. -/
def getThreadId (userId guildId : Nat) (s : St) : ThreadKey × St :=
  (⟨userId, guildId, s.nextNonce⟩, { s with nextNonce := s.nextNonce + 1 })

/-- `_check_user_requirements` (lines 388-412). -/
def checkUserRequirements (user : UserProfile) (g : Guild) (cfg : GuildConfig)
    (now : Int) : Bool :=
  let req := cfg.userRequirements
  if req.minAccountAge > 0 ∧ now - user.createdAt < req.minAccountAge then
    false
  else if req.requireServerMember then
    match getMember g user.id with
    | none => false
    | some joinedAt =>
      if req.minServerAge > 0 ∧ now - joinedAt < req.minServerAge then false
      else true
  else true

/-- `_is_user_blocked` (lines 414-432): global block map, then the user
record flag, then the guild block list.  `if guild_id:` is Python truthiness,
so a guild id of `0` skips the guild-scoped check. -/
def isUserBlocked (env : Env) (s : St) (userId : Nat) (guildId : Option Nat) : Bool :=
  if userId ∈ s.globalBlocked then true
  else if (s.users userId).blocked then true
  else
    match guildId with
    | some g => if g ≠ 0 then decide (userId ∈ (env.guildCfg g).blockedUsers) else false
    | none => false

/-- The per-key core of `_is_rate_limited` (lines 311-323): trim entries at
or before `now - time_window` (the code keeps `timestamp > cutoff`), reject
without recording when the remaining count reaches `max_messages`, otherwise
record `now`.  Returns the verdict and the written-back timestamp list. -/
def rlCheck (maxMessages : Nat) (timeWindow : Int) (l : List Int) (now : Int) :
    Bool × List Int :=
  let trimmed := l.filter (fun ts => decide (now - timeWindow < ts))
  if maxMessages ≤ trimmed.length then (true, trimmed)
  else (false, trimmed ++ [now])

/-- Store a per-key check result back into the state under its key. -/
def rlApply (s : St) (key : Nat × Nat) (r : Bool × List Int) : Bool × St :=
  (r.1, { s with rateLimits := upd s.rateLimits key r.2 })

/-- `_is_rate_limited` (lines 297-323): read the guild's rate config, short
circuit when disabled, else run the per-key check on `self.rate_limits` under
the `(guild, user)` key and store the resulting list (the trimmed list is
written back even on a limited verdict, mirroring line 314). -/
def isRateLimited (env : Env) (s : St) (userId guildId : Nat) (now : Int) :
    Bool × St :=
  let rateCfg := (env.guildCfg guildId).rateLimiting
  if rateCfg.enabled = false then (false, s)
  else
    let key := (guildId, userId)
    rlApply s key (rlCheck rateCfg.maxMessages rateCfg.timeWindow (s.rateLimits key) now)

/-- `_trigger_hook` (lines 288-294): invoke every registered observer in
order; an observer that raises is logged (its message collected) and skipped,
and nothing propagates to the caller.  Returns the invocation results in
order and the collected log entries. -/
def triggerHook {α : Type} (hooks : List (α → Except String Unit)) (payload : α) :
    List (Except String Unit) × List String :=
  match hooks with
  | [] => ([], [])
  | h :: rest =>
    let r := h payload
    let rs := triggerHook rest payload
    (r :: rs.1, (match r with | Except.error e => [e] | Except.ok _ => []) ++ rs.2)

/-- `self.hooks.get(hook_name, [])` followed by the dispatch loop: the
registry maps each event kind to its observers in registration order. -/
def triggerHookNamed {α : Type} (registry : String → List (α → Except String Unit))
    (kind : String) (payload : α) : List (Except String Unit) × List String :=
  triggerHook (registry kind) payload

/-- `_send_auto_response` (lines 616-639): a DM iff the guild's auto-response
is enabled (embed vs. plain text only changes presentation). -/
def sendAutoResponse (env : Env) (g : Guild) (user : UserProfile) : List Effect :=
  if (env.guildCfg g.id).autoResponse.enabled then
    [Effect.dmUser user.id DMKind.autoResponse]
  else []

/-- `_create_new_thread` (lines 494-555): validate the configured category,
provision a channel, persist the Thread record, point the conversation's
`active_thread` at the new channel id, bump the global counter, and publish
`thread_created`. -/
def createNewThread (env : Env) (g : Guild) (user : UserProfile) (tid : ThreadKey)
    (s : St) (now : Int) : Option Nat × St × List Effect :=
  let cfg := env.guildCfg g.id
  match cfg.categoryId with
  | none => (none, s, [])
  | some catId =>
    if catId ∉ g.categories then (none, s, [])
    else if g.createOk = false then (none, s, [])
    else
      let chId := s.nextChannelId
      let chName := "modmail-" ++ user.name ++ "-" ++ user.discriminator
      let data : ThreadData :=
        { userId := some user.id, channelId := some chId, guildId := some g.id,
          createdAt := some now, status := ThreadStatus.opened,
          participants := [user.id] }
      let s1 := { s with nextChannelId := s.nextChannelId + 1,
                         createdChannels := s.createdChannels ++ [(g.id, ⟨chId, chName⟩)] }
      let s2 := setThreadData s1 g.id tid data
      let conv : ConvData := { s2.convs (g.id, user.id) with activeThread := some chId }
      let s3 := { s2 with convs := upd s2.convs (g.id, user.id) conv }
      let s4 := { s3 with totalThreadsCreated := s3.totalThreadsCreated + 1 }
      (some chId, s4,
        [Effect.channelCreated chId chName, Effect.hookFired "thread_created"])

/-- `_get_or_create_thread` (lines 476-488): a fresh id is generated first;
if the conversation's `active_thread` channel still resolves it is returned
unchanged, otherwise a new thread is created.  `if existing_thread:` is
Python truthiness, so a stored channel id of `0` falls through to creation. -/
def getOrCreateThread (env : Env) (g : Guild) (user : UserProfile) (s : St)
    (now : Int) : Option Nat × St × List Effect :=
  let idPair := getThreadId user.id g.id s
  let s1 := idPair.2
  match (s1.convs (g.id, user.id)).activeThread with
  | some chId =>
    if chId ≠ 0 then
      match getChannel g s1 chId with
      | some _ => (some chId, s1, [])
      | none => createNewThread env g user idPair.1 s1 now
    else createNewThread env g user idPair.1 s1 now
  | none => createNewThread env g user idPair.1 s1 now

/-- `_process_modmail_message` (lines 434-474).  Note line 443 calls
`_get_thread_id` again, so the record consulted for `message_count` is a
freshly generated key, never the record `_create_new_thread` persisted. -/
def processModmailMessage (env : Env) (g : Guild) (user : UserProfile) (s : St)
    (now : Int) : RouteResult × St × List Effect :=
  match getOrCreateThread env g user s now with
  | (none, s1, e1) =>
    (RouteResult.deliveryFailed, s1, e1 ++ [Effect.dmUser user.id DMKind.threadCreationFailed])
  | (some chId, s1, e1) =>
    let idPair := getThreadId user.id g.id s1
    let tid := idPair.1
    let s2 := idPair.2
    let tdata := getThreadData s2 g.id tid
    let s3 := updateThreadData s2 g.id tid
                (fun d => { d with messageCount := tdata.messageCount + 1 })
    let autoEffs := if tdata.messageCount = 0 then sendAutoResponse env g user else []
    let logEffs := if tdata.messageCount = 0 then [Effect.modlogCase "modmail_thread_created"] else []
    (RouteResult.delivered, s3,
      e1 ++ [Effect.forwardToThread chId] ++ autoEffs
         ++ [Effect.hookFired "message_processed"] ++ logEffs)

/-- The guild filter of `on_message_without_command` (lines 355-364):
modmail enabled and the user meets the guild's requirements. -/
def eligibleGuilds (env : Env) (user : UserProfile) (now : Int) : List Guild :=
  env.guilds.filter
    (fun g => (env.guildCfg g.id).enabled && checkUserRequirements user g (env.guildCfg g.id) now)

/-- `on_message_without_command` (lines 344-386) for an inbound DM: ignore
bots, filter eligible guilds, pick the first, then block check, rate-limit
check (with cooldown DM), and processing. -/
def onMessageWithoutCommand (env : Env) (user : UserProfile) (s : St) (now : Int) :
    RouteResult × St × List Effect :=
  if user.bot then (RouteResult.ignored, s, [])
  else
    match eligibleGuilds env user now with
    | [] => (RouteResult.noTarget, s, [])
    | g :: _ =>
      if isUserBlocked env s user.id (some g.id) then (RouteResult.blocked, s, [])
      else
        match isRateLimited env s user.id g.id now with
        | (true, s1) =>
          let msg := (env.guildCfg g.id).rateLimiting.cooldownMessage
          (RouteResult.rateLimited msg, s1, [Effect.dmUser user.id (DMKind.cooldown msg)])
        | (false, s1) => processModmailMessage env g user s1 now

/-- `_is_modmail_channel` (lines 887-890): `channel.name.startswith("modmail-")`,
modelled as a prefix test on the name's character list. -/
def isModmailChannel (ch : Channel) : Bool :=
  List.isPrefixOf "modmail-".data ch.name.data

/-- The channel-to-thread search of `_get_thread_data_from_channel` and
`_close_thread` (lines 892-901, 907-912): first record of the guild whose
`channel_id` matches. -/
def findThreadByChannel (s : St) (guildId chId : Nat) :
    Option ((Nat × ThreadKey) × ThreadData) :=
  (s.threads.filter (fun e => decide (e.1.1 = guildId))).find?
    (fun e => decide (e.2.channelId = some chId))

/-- `_get_thread_data_from_channel` (lines 892-901). -/
def getThreadDataFromChannel (s : St) (guildId chId : Nat) : Option ThreadData :=
  (findThreadByChannel s guildId chId).map (fun e => e.2)

/-- The record update `_close_thread` performs (lines 914-921). -/
def closePatch (now : Int) (closerId : Nat) (reason : Option String)
    (d : ThreadData) : ThreadData :=
  { d with status := ThreadStatus.closed, closedAt := some now,
           closeReason := reason, closedBy := some closerId }

/-- `_close_thread` (lines 903-995): locate the record by channel id and
overwrite its close fields (no status check), DM the user when configured and
resolvable, announce in the channel, clear the conversation's
`active_thread`, delete or archive-rename the surface, record the modlog
case, and publish `thread_closed`.  `tdArg` is the snapshot record the caller
passed (`thread_data`), used for the user id exactly as the code does. -/
def closeThread (env : Env) (g : Guild) (channel : Channel) (closerId : Nat)
    (reason : Option String) (tdArg : ThreadData) (s : St) (now : Int) :
    St × List Effect :=
  let cfg := (env.guildCfg g.id).threadSettings
  let s1 := match findThreadByChannel s g.id channel.id with
    | some fe => updateThreadData s g.id fe.1.2 (closePatch now closerId reason)
    | none => s
  let notifyEffs := match tdArg.userId with
    | some uid =>
      if uid ≠ 0 ∧ cfg.notifyUserOnClose ∧ uid ∈ env.knownUsers then
        [Effect.dmUser uid DMKind.threadClosedNotice]
      else []
    | none => []
  let s2 := match tdArg.userId with
    | some uid =>
      if uid ≠ 0 then
        { s1 with convs := upd s1.convs (g.id, uid) { s1.convs (g.id, uid) with activeThread := none } }
      else s1
    | none => s1
  let surfaceEffs :=
    if cfg.deleteOnClose then [Effect.channelDeleted channel.id]
    else [Effect.channelRenamed channel.id ("closed-" ++ channel.name)]
  (s2, notifyEffs ++ [Effect.channelNotice channel.id] ++ surfaceEffs
        ++ [Effect.modlogCase "modmail_thread_closed", Effect.hookFired "thread_closed"])

/-- Python `not reason`: `None` and the empty string are both falsy. -/
def reasonEmpty : Option String → Bool
  | none => true
  | some r => decide (r = "")

/-- `modmail_close` (lines 839-885): channel check, thread-data lookup,
required-reason validation, interactive confirmation (modelled by the
`confirmed` argument), then `_close_thread`. -/
def modmailClose (env : Env) (g : Guild) (channel : Channel) (closerId : Nat)
    (reason : Option String) (confirmed : Bool) (s : St) (now : Int) :
    CloseResult × St × List Effect :=
  if isModmailChannel channel = false then (CloseResult.notModmailChannel, s, [])
  else
    match getThreadDataFromChannel s g.id channel.id with
    | none => (CloseResult.noThreadData, s, [])
    | some tdata =>
      let cfg := (env.guildCfg g.id).threadSettings
      if cfg.requireCloseReason ∧ reasonEmpty reason then
        (CloseResult.validationError, s,
          [Effect.ctxMessage "Please provide a reason for closing this thread."])
      else if cfg.closeConfirmation ∧ confirmed = false then
        (CloseResult.cancelled, s, [])
      else
        let r := closeThread env g channel closerId reason tdata s now
        (CloseResult.closed, r.1, r.2)

/-- What one iteration of the `_auto_close_threads` inner loop (lines
1410-1425) decides to do with one snapshot record: skip it (not open, too
young, or its channel no longer resolves), abort the sweep (an open record
with `created_at = None` makes `datetime.fromisoformat` raise), or close the
resolved channel's thread. -/
inductive SweepAction where
  | skip
  | abort
  | close (ch : Channel)
deriving DecidableEq, Repr

/-- The branch structure of one `_auto_close_threads` loop iteration. -/
def autoCloseStep (g : Guild) (cutoff : Int) (s : St)
    (e : (Nat × ThreadKey) × ThreadData) : SweepAction :=
  if e.2.status ≠ ThreadStatus.opened then SweepAction.skip
  else
    match e.2.createdAt with
    | none => SweepAction.abort
    | some created =>
      if created < cutoff then
        match e.2.channelId.bind (fun cid => getChannel g s cid) with
        | some ch => SweepAction.close ch
        | none => SweepAction.skip
      else SweepAction.skip

/-- The per-thread loop of `_auto_close_threads` (lines 1410-1425) over a
snapshot of the guild's records.  An abort (uncaught exception, only caught
in `cleanup_task`) stops the rest of the sweep; the Boolean in the result
marks it.  Closing uses reason "Auto-closed due to inactivity" and
`guild.me` as the closer. -/
def autoCloseList (env : Env) (g : Guild) (cutoff now : Int) :
    List ((Nat × ThreadKey) × ThreadData) → St → St × List Effect × Bool
  | [], s => (s, [], false)
  | e :: rest, s =>
    match autoCloseStep g cutoff s e with
    | SweepAction.skip => autoCloseList env g cutoff now rest s
    | SweepAction.abort => (s, [], true)
    | SweepAction.close ch =>
      let r := closeThread env g ch g.meId (some "Auto-closed due to inactivity") e.2 s now
      let r2 := autoCloseList env g cutoff now rest r.1
      (r2.1, r.2 ++ r2.2.1, r2.2.2)

/-- The per-guild body of `_auto_close_threads` (lines 1396-1425): skip
disabled guilds and non-positive `auto_close_after`, then walk the guild's
records with cutoff `now - auto_close_after`. -/
def autoCloseGuild (env : Env) (g : Guild) (s : St) (now : Int) :
    St × List Effect × Bool :=
  let cfg := env.guildCfg g.id
  if cfg.enabled = false then (s, [], false)
  else if cfg.threadSettings.autoCloseAfter ≤ 0 then (s, [], false)
  else
    autoCloseList env g (now - cfg.threadSettings.autoCloseAfter) now
      (s.threads.filter (fun e => decide (e.1.1 = g.id))) s

/-- The guild loop of `_auto_close_threads`; an abort (uncaught exception)
stops the remaining guilds too. -/
def autoCloseGuilds (env : Env) (now : Int) : List Guild → St → St × List Effect × Bool
  | [], s => (s, [], false)
  | g :: rest, s =>
    let r := autoCloseGuild env g s now
    if r.2.2 then r
    else
      let r2 := autoCloseGuilds env now rest r.1
      (r2.1, r.2.1 ++ r2.2.1, r2.2.2)

/-- `_auto_close_threads` (lines 1394-1425), one sweep of `cleanup_task`. -/
def autoCloseThreads (env : Env) (s : St) (now : Int) : St × List Effect × Bool :=
  autoCloseGuilds env now env.guilds s

/-- Iterated rate-limit checks: run `_is_rate_limited` at each time in turn,
collecting the verdicts. -/
def rlRun (env : Env) (userId guildId : Nat) : List Int → St → List Bool × St
  | [], s => ([], s)
  | t :: ts, s =>
    let r := isRateLimited env s userId guildId t
    let rest := rlRun env userId guildId ts r.2
    (r.1 :: rest.1, rest.2)

/-- The same iteration at the level of one key's timestamp list. -/
def rlCheckRun (maxMessages : Nat) (timeWindow : Int) :
    List Int → List Int → List Bool × List Int
  | [], l => ([], l)
  | t :: ts, l =>
    let r := rlCheck maxMessages timeWindow l t
    let rest := rlCheckRun maxMessages timeWindow ts r.2
    (r.1 :: rest.1, rest.2)

/-! ## Concrete fixtures

A single enabled guild (id 1) holding a valid modmail category (channel 10),
bot member id 99, and a non-bot user (id 42) whose account is old enough for
the default 1-day minimum.  The configuration is the registered default with
modmail enabled and the category set, exactly what `modmail setup`
produces. -/

/-- Fixture guild. -/
def gA : Guild :=
  { id := 1, channelList := [], categories := [10], members := [], meId := 99,
    createOk := true }

/-- Fixture configuration: defaults with modmail enabled and a category. -/
def cfgA : GuildConfig := { enabled := true, categoryId := some 10 }

/-- Fixture environment. -/
def envA : Env :=
  { guilds := [gA], guildCfg := fun gid => if gid = 1 then cfgA else {},
    knownUsers := [42] }

/-- Fixture user. -/
def alice : UserProfile :=
  { id := 42, name := "alice", discriminator := "0001", createdAt := 0, bot := false }

/-- Fixture initial state: nothing stored yet. -/
def stA : St := {}

/-- First inbound DM from the fixture user (scenario A of the spec). -/
def run1 : RouteResult × St × List Effect :=
  onMessageWithoutCommand envA alice stA 1000000

/-- Second inbound DM from the same user 100 seconds later, before the
thread closes (scenario B of the spec). -/
def run2 : RouteResult × St × List Effect :=
  onMessageWithoutCommand envA alice run1.2.1 1000100

/-- A direct fresh-thread creation, as `_get_or_create_thread` performs it. -/
def createRun : Option Nat × St × List Effect :=
  createNewThread envA gA alice ⟨42, 1, 0⟩ stA 777

/-- The channel provisioned by the fixture's first message. -/
def chA : Channel := ⟨100, "modmail-alice-0001"⟩

/-- Fixture state for blocked-user intake: the user is globally blocked. -/
def stBlk : St := { globalBlocked := [42] }

/-- Requirements with a positive minimum server age but no membership
requirement, for the eligibility claim. -/
def req10 : UserRequirements :=
  { minAccountAge := 86400, minServerAge := 999999, requireServerMember := false }

/-- Fixture configuration carrying `req10`. -/
def cfg10 : GuildConfig := { cfgA with userRequirements := req10 }

/-- The error content of an observer invocation, for stating which observer
failures get logged. -/
def errOf : Except String Unit → Option String
  | Except.error e => some e
  | Except.ok _ => none

/-- Key of a fixture thread that has already been closed once. -/
def k3 : ThreadKey := ⟨42, 1, 0⟩

/-- A Thread record closed at time 500 with reason "first" by staffer 7. -/
def d3 : ThreadData :=
  { userId := some 42, channelId := some 100, guildId := some 1,
    createdAt := some 100, closedAt := some 500, status := ThreadStatus.closed,
    participants := [42], messageCount := 1, closeReason := some "first",
    closedBy := some 7 }

/-- State holding only the already-closed fixture thread. -/
def st3 : St := { threads := [((1, k3), d3)] }

/-- Reclaimer fixture guild: two live modmail channels, bot member 99. -/
def g9 : Guild :=
  { id := 1,
    channelList := [⟨200, "modmail-bob-0002"⟩, ⟨201, "modmail-carol-0003"⟩],
    categories := [10], members := [], meId := 99, createOk := true }

/-- Reclaimer fixture config: enabled, `auto_close_after = 3600`. -/
def cfg9 : GuildConfig :=
  { enabled := true, categoryId := some 10,
    threadSettings := { autoCloseAfter := 3600 } }

/-- Reclaimer fixture environment. -/
def env9 : Env :=
  { guilds := [g9], guildCfg := fun gid => if gid = 1 then cfg9 else {},
    knownUsers := [] }

/-- An open thread created 7200 seconds before the sweep (at 2800, sweep at
10000), with a resolvable channel. -/
def kOld : ThreadKey := ⟨50, 1, 0⟩

/-- Data of the stale open fixture thread. -/
def dOld : ThreadData :=
  { userId := some 50, channelId := some 200, guildId := some 1,
    createdAt := some 2800, status := ThreadStatus.opened,
    participants := [50], messageCount := 1 }

/-- An open thread created 60 seconds before the sweep. -/
def kYoung : ThreadKey := ⟨51, 1, 1⟩

/-- Data of the young open fixture thread. -/
def dYoung : ThreadData :=
  { userId := some 51, channelId := some 201, guildId := some 1,
    createdAt := some 9940, status := ThreadStatus.opened,
    participants := [51], messageCount := 1 }

/-- A stale open thread whose channel handle (555) no longer resolves. -/
def kGhost : ThreadKey := ⟨52, 1, 2⟩

/-- Data of the stale open fixture thread with a dangling channel. -/
def dGhost : ThreadData :=
  { userId := some 52, channelId := some 555, guildId := some 1,
    createdAt := some 2800, status := ThreadStatus.opened,
    participants := [52], messageCount := 1 }

/-- An old thread that is already closed. -/
def kDone : ThreadKey := ⟨53, 1, 3⟩

/-- Data of the already-closed fixture thread. -/
def dDone : ThreadData :=
  { userId := some 53, channelId := some 202, guildId := some 1,
    createdAt := some 100, closedAt := some 200, status := ThreadStatus.closed,
    participants := [53], messageCount := 1, closeReason := some "done",
    closedBy := some 7 }

/-- Reclaimer fixture state: stale, young, dangling-channel, and closed
threads. -/
def st9 : St :=
  { threads := [((1, kOld), dOld), ((1, kYoung), dYoung),
                ((1, kGhost), dGhost), ((1, kDone), dDone)] }

/-! ## Helper lemmas -/

@[simp] lemma upd_self {α β : Type} [DecidableEq α] (f : α → β) (k : α) (v : β) :
    upd f k v k = v := by
  simp [upd]

lemma upd_ne {α β : Type} [DecidableEq α] (f : α → β) (k k' : α) (v : β)
    (h : k' ≠ k) : upd f k v k' = f k' := by
  simp [upd, h]

lemma find?_key_replace {κ ν : Type} [DecidableEq κ] (l : List (κ × ν)) (k : κ) (d : ν) :
    (l.map (fun e => if e.1 = k then (e.1, d) else e)).find? (fun e => decide (e.1 = k)) =
      match l.find? (fun e => decide (e.1 = k)) with
      | some _ => some (k, d)
      | none => none := by
  induction l with
  | nil => rfl
  | cons a t ih =>
    by_cases h : a.1 = k
    · simp [List.find?_cons, h]
    · simp [List.find?_cons, h, ih]

lemma find?_key_replace_ne {κ ν : Type} [DecidableEq κ] (l : List (κ × ν)) (k k' : κ)
    (d : ν) (hne : k' ≠ k) :
    (l.map (fun e => if e.1 = k then (e.1, d) else e)).find? (fun e => decide (e.1 = k')) =
      l.find? (fun e => decide (e.1 = k')) := by
  induction l with
  | nil => rfl
  | cons a t ih =>
    by_cases h : a.1 = k
    · have h2 : ¬(a.1 = k') := by rw [h]; exact fun hc => hne hc.symm
      simp [List.find?_cons, h, h2, hne.symm, ih]
    · simp [List.find?_cons, h, ih]

lemma find?_key_of_mem_nodup {κ ν : Type} [DecidableEq κ] (l : List (κ × ν))
    (e : κ × ν) (he : e ∈ l) (hnd : (l.map Prod.fst).Nodup) :
    l.find? (fun x => decide (x.1 = e.1)) = some e := by
  induction l with
  | nil => cases he
  | cons a t ih =>
    rw [List.map_cons, List.nodup_cons] at hnd
    rcases List.mem_cons.1 he with rfl | hmem
    · simp [List.find?_cons]
    · have hne : ¬(a.1 = e.1) := fun hc =>
        hnd.1 (hc ▸ List.mem_map_of_mem Prod.fst hmem)
      simp only [List.find?_cons, hne, decide_eq_true_eq, if_neg]
      · exact ih hmem hnd.2

lemma threadLookup_set_self (s : St) (gid : Nat) (tid : ThreadKey) (d : ThreadData) :
    threadLookup (setThreadData s gid tid d) (gid, tid) = some d := by
  unfold threadLookup setThreadData
  cases hf : s.threads.find? (fun e => decide (e.1 = (gid, tid))) with
  | some fe =>
    simp only [hf, Option.isSome_some, if_true]
    rw [find?_key_replace, hf]
    rfl
  | none =>
    simp only [hf, Option.isSome_none, Bool.false_eq_true, if_false]
    rw [List.find?_append, hf]
    simp

lemma threadLookup_set_ne (s : St) (gid : Nat) (tid : ThreadKey) (d : ThreadData)
    (k' : Nat × ThreadKey) (hk : k' ≠ (gid, tid)) :
    threadLookup (setThreadData s gid tid d) k' = threadLookup s k' := by
  unfold threadLookup setThreadData
  cases hf : s.threads.find? (fun e => decide (e.1 = (gid, tid))) with
  | some fe =>
    simp only [hf, Option.isSome_some, if_true]
    rw [find?_key_replace_ne _ _ _ _ hk]
  | none =>
    simp only [hf, Option.isSome_none, Bool.false_eq_true, if_false]
    rw [List.find?_append]
    simp [Ne.symm hk]

lemma threadLookup_update_self (s : St) (gid : Nat) (tid : ThreadKey)
    (patch : ThreadData → ThreadData) :
    threadLookup (updateThreadData s gid tid patch) (gid, tid) =
      some (patch (getThreadData s gid tid)) :=
  threadLookup_set_self s gid tid _

lemma threadLookup_update_ne (s : St) (gid : Nat) (tid : ThreadKey)
    (patch : ThreadData → ThreadData) (k' : Nat × ThreadKey) (hk : k' ≠ (gid, tid)) :
    threadLookup (updateThreadData s gid tid patch) k' = threadLookup s k' :=
  threadLookup_set_ne s gid tid _ k' hk

lemma closeThread_threads (env : Env) (g : Guild) (ch : Channel) (closerId : Nat)
    (reason : Option String) (td : ThreadData) (s : St) (now : Int) :
    (closeThread env g ch closerId reason td s now).1.threads =
      (match findThreadByChannel s g.id ch.id with
        | some fe => (updateThreadData s g.id fe.1.2 (closePatch now closerId reason)).threads
        | none => s.threads) := by
  unfold closeThread
  cases findThreadByChannel s g.id ch.id <;>
    cases td.userId <;>
    simp <;> split <;> rfl

lemma setThreadData_createdChannels (s : St) (gid : Nat) (tid : ThreadKey)
    (d : ThreadData) :
    (setThreadData s gid tid d).createdChannels = s.createdChannels := by
  unfold setThreadData
  split <;> rfl

lemma closeThread_createdChannels (env : Env) (g : Guild) (ch : Channel) (closerId : Nat)
    (reason : Option String) (td : ThreadData) (s : St) (now : Int) :
    (closeThread env g ch closerId reason td s now).1.createdChannels = s.createdChannels := by
  unfold closeThread
  cases findThreadByChannel s g.id ch.id <;> cases td.userId <;>
    simp [updateThreadData, setThreadData_createdChannels] <;> split <;>
    simp [updateThreadData, setThreadData_createdChannels]

lemma eq_of_mem_keys_nodup {κ ν : Type} [DecidableEq κ] (l : List (κ × ν))
    (hnd : (l.map Prod.fst).Nodup) (a b : κ × ν) (ha : a ∈ l) (hb : b ∈ l)
    (hk : a.1 = b.1) : a = b := by
  have h1 := find?_key_of_mem_nodup l a ha hnd
  rw [hk] at h1
  have h2 := find?_key_of_mem_nodup l b hb hnd
  rw [h1] at h2
  exact Option.some.inj h2

lemma mem_of_threadLookup (s : St) (k : Nat × ThreadKey) (d : ThreadData)
    (h : threadLookup s k = some d) : (k, d) ∈ s.threads := by
  unfold threadLookup at h
  cases hf : s.threads.find? (fun e => decide (e.1 = k)) with
  | none => rw [hf] at h; cases h
  | some fe =>
    rw [hf] at h
    have hp : fe.1 = k := by simpa using List.find?_some hf
    have hm := List.mem_of_find?_eq_some hf
    have hd : fe.2 = d := by simpa using h
    have : fe = (k, d) := by
      cases fe
      simp_all
    rw [← this]
    exact hm

lemma map_fst_replace {κ ν : Type} [DecidableEq κ] (l : List (κ × ν)) (k : κ) (d : ν) :
    (l.map (fun e => if e.1 = k then (e.1, d) else e)).map Prod.fst = l.map Prod.fst := by
  induction l with
  | nil => rfl
  | cons a t ih =>
    by_cases h : a.1 = k <;> simp [h, ih]

lemma map_proj_replace {κ ν π : Type} [DecidableEq κ] (l : List (κ × ν)) (k : κ) (d : ν)
    (f : ν → π) (hsame : ∀ e ∈ l, e.1 = k → f d = f e.2) :
    (l.map (fun e => if e.1 = k then (e.1, d) else e)).map (fun e => (e.1, f e.2)) =
      l.map (fun e => (e.1, f e.2)) := by
  induction l with
  | nil => rfl
  | cons a t ih =>
    have iht := ih (fun e he hk => hsame e (List.mem_cons_of_mem a he) hk)
    by_cases h : a.1 = k
    · have := hsame a (List.mem_cons_self a t) h
      simp [h, iht, this]
    · simp [h, iht]

lemma updateThreadData_shape (s : St) (gid : Nat) (tid : ThreadKey)
    (patch : ThreadData → ThreadData)
    (hnd : (s.threads.map Prod.fst).Nodup)
    (hexists : (s.threads.find? (fun e => decide (e.1 = (gid, tid)))).isSome = true)
    (hchan : ∀ d : ThreadData, (patch d).channelId = d.channelId) :
    (updateThreadData s gid tid patch).threads.map (fun e => (e.1, e.2.channelId)) =
      s.threads.map (fun e => (e.1, e.2.channelId)) ∧
    (updateThreadData s gid tid patch).threads.map Prod.fst = s.threads.map Prod.fst := by
  unfold updateThreadData setThreadData
  simp only [hexists, if_true]
  constructor
  · apply map_proj_replace
    intro e he hk
    have hlk : threadLookup s e.1 = some e.2 := by
      unfold threadLookup
      rw [find?_key_of_mem_nodup s.threads e he hnd]
      rfl
    have : getThreadData s gid tid = e.2 := by
      unfold getThreadData
      rw [← hk, hlk]
      rfl
    rw [this, hchan]
  · exact map_fst_replace s.threads (gid, tid) _

lemma findThreadByChannel_of_entry (s : St) (g : Guild)
    (e : (Nat × ThreadKey) × ThreadData) (cid : Nat)
    (hnd : (s.threads.map Prod.fst).Nodup)
    (hmem : e ∈ s.threads)
    (hg : e.1.1 = g.id)
    (hcid : e.2.channelId = some cid)
    (hdist : ∀ f ∈ s.threads, f.1.1 = g.id → f.1 ≠ e.1 → f.2.channelId ≠ some cid) :
    findThreadByChannel s g.id cid = some e := by
  unfold findThreadByChannel
  cases hf : (s.threads.filter (fun x => decide (x.1.1 = g.id))).find?
      (fun x => decide (x.2.channelId = some cid)) with
  | none =>
    exfalso
    have hsome : ((s.threads.filter (fun x => decide (x.1.1 = g.id))).find?
        (fun x => decide (x.2.channelId = some cid))).isSome := by
      rw [List.find?_isSome]
      exact ⟨e, List.mem_filter.2 ⟨hmem, by simp [hg]⟩, by simp [hcid]⟩
    rw [hf] at hsome
    simp at hsome
  | some fe =>
    have hp := List.find?_some hf
    have hm := List.mem_of_find?_eq_some hf
    rw [List.mem_filter] at hm
    have hfg : fe.1.1 = g.id := by simpa using hm.2
    have hfc : fe.2.channelId = some cid := by simpa using hp
    by_cases hk : fe.1 = e.1
    · rw [eq_of_mem_keys_nodup s.threads hnd fe e hm.1 hmem hk]
    · exact absurd hfc (hdist fe hm.1 hfg hk)

lemma closeThread_found_spec (env : Env) (g : Guild) (ch : Channel) (closerId : Nat)
    (reason : Option String) (s : St) (now : Int)
    (k0 : Nat × ThreadKey) (td : ThreadData)
    (hnd : (s.threads.map Prod.fst).Nodup)
    (hfind : findThreadByChannel s g.id ch.id = some (k0, td)) :
    threadLookup (closeThread env g ch closerId reason td s now).1 k0 =
      some (closePatch now closerId reason td) ∧
    (∀ k, k ≠ k0 →
      threadLookup (closeThread env g ch closerId reason td s now).1 k =
        threadLookup s k) ∧
    (closeThread env g ch closerId reason td s now).1.threads.map
        (fun x => (x.1, x.2.channelId)) =
      s.threads.map (fun x => (x.1, x.2.channelId)) ∧
    (closeThread env g ch closerId reason td s now).1.threads.map Prod.fst =
      s.threads.map Prod.fst := by
  have hmemfil := List.mem_of_find?_eq_some hfind
  rw [List.mem_filter] at hmemfil
  have hmem : (k0, td) ∈ s.threads := hmemfil.1
  have hfe_g : k0.1 = g.id := by simpa using hmemfil.2
  have hkey : (g.id, k0.2) = k0 := by rw [← hfe_g]
  have hlook : threadLookup s k0 = some td := by
    unfold threadLookup
    rw [find?_key_of_mem_nodup s.threads (k0, td) hmem hnd]
    rfl
  have hgd : getThreadData s g.id k0.2 = td := by
    unfold getThreadData
    rw [hkey, hlook]
    rfl
  have hex : (s.threads.find? (fun x => decide (x.1 = (g.id, k0.2)))).isSome = true := by
    rw [hkey, List.find?_isSome]
    exact ⟨(k0, td), hmem, by simp⟩
  have ht := closeThread_threads env g ch closerId reason td s now
  rw [hfind] at ht
  have htl : ∀ k, threadLookup (closeThread env g ch closerId reason td s now).1 k =
      threadLookup (updateThreadData s g.id k0.2 (closePatch now closerId reason)) k := by
    intro k
    unfold threadLookup
    rw [ht]
  have hshape := updateThreadData_shape s g.id k0.2 (closePatch now closerId reason)
    hnd hex (fun d => rfl)
  refine ⟨?_, ?_, ?_, ?_⟩
  · rw [htl k0, ← hkey, threadLookup_update_self, hgd]
  · intro k hk
    rw [htl k, threadLookup_update_ne]
    rw [hkey]
    exact hk
  · rw [ht]
    exact hshape.1
  · rw [ht]
    exact hshape.2

lemma getChannel_congr (g : Guild) (s s' : St)
    (h : s'.createdChannels = s.createdChannels) (cid : Nat) :
    getChannel g s' cid = getChannel g s cid := by
  unfold getChannel
  rw [h]

lemma shape_transfer (l l' : List ((Nat × ThreadKey) × ThreadData))
    (hsh : l'.map (fun x => (x.1, x.2.channelId)) = l.map (fun x => (x.1, x.2.channelId)))
    (f' : (Nat × ThreadKey) × ThreadData) (hf' : f' ∈ l') :
    ∃ f0 ∈ l, f0.1 = f'.1 ∧ f0.2.channelId = f'.2.channelId := by
  have hmm : (f'.1, f'.2.channelId) ∈ l'.map (fun x => (x.1, x.2.channelId)) :=
    List.mem_map_of_mem _ hf'
  rw [hsh] at hmm
  obtain ⟨f0, hf0, heq⟩ := List.mem_map.1 hmm
  rw [Prod.mk.injEq] at heq
  exact ⟨f0, hf0, heq.1, heq.2⟩

lemma bind_getChannel_congr (g : Guild) (s s' : St)
    (h : s'.createdChannels = s.createdChannels) (o : Option Nat) :
    o.bind (fun cid => getChannel g s' cid) = o.bind (fun cid => getChannel g s cid) := by
  cases o with
  | none => rfl
  | some cid => simp [getChannel_congr g s s' h]

lemma autoCloseStep_close_inv (g : Guild) (cutoff : Int) (s : St)
    (e : (Nat × ThreadKey) × ThreadData) (ch : Channel)
    (h : autoCloseStep g cutoff s e = SweepAction.close ch) :
    e.2.status = ThreadStatus.opened ∧
    (∃ created : Int, e.2.createdAt = some created ∧ created < cutoff) ∧
    e.2.channelId.bind (fun cid => getChannel g s cid) = some ch := by
  unfold autoCloseStep at h
  by_cases hst : e.2.status ≠ ThreadStatus.opened
  · rw [if_pos hst] at h
    exact SweepAction.noConfusion h
  · rw [if_neg hst] at h
    push_neg at hst
    cases hca : e.2.createdAt with
    | none =>
      simp only [hca] at h
      exact SweepAction.noConfusion h
    | some created =>
      simp only [hca] at h
      by_cases hlt : created < cutoff
      · rw [if_pos hlt] at h
        cases hch : e.2.channelId.bind (fun cid => getChannel g s cid) with
        | none =>
          simp only [hch] at h
          exact SweepAction.noConfusion h
        | some ch2 =>
          simp only [hch] at h
          cases h
          exact ⟨hst, ⟨created, rfl, hlt⟩, rfl⟩
      · rw [if_neg hlt] at h
        exact SweepAction.noConfusion h

lemma autoCloseStep_abort_inv (g : Guild) (cutoff : Int) (s : St)
    (e : (Nat × ThreadKey) × ThreadData)
    (h : autoCloseStep g cutoff s e = SweepAction.abort) :
    e.2.status = ThreadStatus.opened ∧ e.2.createdAt = none := by
  unfold autoCloseStep at h
  by_cases hst : e.2.status ≠ ThreadStatus.opened
  · rw [if_pos hst] at h
    exact SweepAction.noConfusion h
  · rw [if_neg hst] at h
    push_neg at hst
    cases hca : e.2.createdAt with
    | none => exact ⟨hst, rfl⟩
    | some created =>
      simp only [hca] at h
      by_cases hlt : created < cutoff
      · rw [if_pos hlt] at h
        cases hch : e.2.channelId.bind (fun cid => getChannel g s cid) with
        | none =>
          simp only [hch] at h
          exact SweepAction.noConfusion h
        | some ch2 =>
          simp only [hch] at h
          exact SweepAction.noConfusion h
      · rw [if_neg hlt] at h
        exact SweepAction.noConfusion h

lemma autoCloseStep_skip_inv (g : Guild) (cutoff : Int) (s : St)
    (e : (Nat × ThreadKey) × ThreadData)
    (h : autoCloseStep g cutoff s e = SweepAction.skip) :
    e.2.status ≠ ThreadStatus.opened ∨
    (∃ created : Int, e.2.createdAt = some created ∧ ¬ created < cutoff) ∨
    e.2.channelId.bind (fun cid => getChannel g s cid) = none := by
  unfold autoCloseStep at h
  by_cases hst : e.2.status ≠ ThreadStatus.opened
  · exact Or.inl hst
  · rw [if_neg hst] at h
    push_neg at hst
    cases hca : e.2.createdAt with
    | none =>
      simp only [hca] at h
      exact SweepAction.noConfusion h
    | some created =>
      simp only [hca] at h
      by_cases hlt : created < cutoff
      · rw [if_pos hlt] at h
        cases hch : e.2.channelId.bind (fun cid => getChannel g s cid) with
        | none => exact Or.inr (Or.inr rfl)
        | some ch2 =>
          simp only [hch] at h
          exact SweepAction.noConfusion h
      · exact Or.inr (Or.inl ⟨created, rfl, hlt⟩)

lemma autoCloseList_spec (env : Env) (g : Guild) (cutoff now : Int) :
    ∀ (entries : List ((Nat × ThreadKey) × ThreadData)) (s : St),
    (s.threads.map Prod.fst).Nodup →
    (entries.map Prod.fst).Nodup →
    (∀ e ∈ entries, e.1.1 = g.id ∧ threadLookup s e.1 = some e.2) →
    (∀ e ∈ entries, ∀ c : Nat, e.2.channelId = some c →
      ∀ f ∈ s.threads, f.1.1 = g.id → f.1 ≠ e.1 → f.2.channelId ≠ some c) →
    (∀ e ∈ entries, e.2.status = ThreadStatus.opened → e.2.createdAt ≠ none) →
    (autoCloseList env g cutoff now entries s).2.2 = false ∧
    (autoCloseList env g cutoff now entries s).1.createdChannels = s.createdChannels ∧
    (∀ k, k ∉ entries.map Prod.fst →
      threadLookup (autoCloseList env g cutoff now entries s).1 k = threadLookup s k) ∧
    (∀ e ∈ entries,
      (e.2.status = ThreadStatus.opened →
        (∀ t : Int, e.2.createdAt = some t → t < cutoff) →
        (e.2.channelId.bind (fun cid => getChannel g s cid)).isSome = true →
        threadLookup (autoCloseList env g cutoff now entries s).1 e.1 =
          some (closePatch now g.meId (some "Auto-closed due to inactivity") e.2)) ∧
      ((e.2.status ≠ ThreadStatus.opened ∨
        (∃ t : Int, e.2.createdAt = some t ∧ ¬ t < cutoff) ∨
        e.2.channelId.bind (fun cid => getChannel g s cid) = none) →
        threadLookup (autoCloseList env g cutoff now entries s).1 e.1 = some e.2)) := by
  intro entries
  induction entries with
  | nil =>
    intro s _ _ _ _ _
    exact ⟨rfl, rfl, fun k _ => rfl, fun e he => absurd he (List.not_mem_nil e)⟩
  | cons e rest ih =>
    intro s hndS hndE hC hdist hcreated
    have hndE' : (rest.map Prod.fst).Nodup := by
      rw [List.map_cons, List.nodup_cons] at hndE
      exact hndE.2
    have henotin : e.1 ∉ rest.map Prod.fst := by
      rw [List.map_cons, List.nodup_cons] at hndE
      exact hndE.1
    have hC' : ∀ f ∈ rest, f.1.1 = g.id ∧ threadLookup s f.1 = some f.2 :=
      fun f hf => hC f (List.mem_cons_of_mem e hf)
    have hdist' : ∀ f ∈ rest, ∀ c : Nat, f.2.channelId = some c →
        ∀ f' ∈ s.threads, f'.1.1 = g.id → f'.1 ≠ f.1 → f'.2.channelId ≠ some c :=
      fun f hf => hdist f (List.mem_cons_of_mem e hf)
    have hcreated' : ∀ f ∈ rest, f.2.status = ThreadStatus.opened → f.2.createdAt ≠ none :=
      fun f hf => hcreated f (List.mem_cons_of_mem e hf)
    have heg : e.1.1 = g.id := (hC e (List.mem_cons_self e rest)).1
    have helook : threadLookup s e.1 = some e.2 := (hC e (List.mem_cons_self e rest)).2
    have hrestne : ∀ f ∈ rest, f.1 ≠ e.1 := by
      intro f hf hcontra
      exact henotin (hcontra ▸ List.mem_map_of_mem Prod.fst hf)
    cases hstep : autoCloseStep g cutoff s e with
    | abort =>
      exfalso
      have hinv := autoCloseStep_abort_inv g cutoff s e hstep
      exact hcreated e (List.mem_cons_self e rest) hinv.1 hinv.2
    | skip =>
      have IH := ih s hndS hndE' hC' hdist' hcreated'
      have hrw : autoCloseList env g cutoff now (e :: rest) s =
          autoCloseList env g cutoff now rest s := by
        simp only [autoCloseList, hstep]
      rw [hrw]
      have hinv := autoCloseStep_skip_inv g cutoff s e hstep
      refine ⟨IH.1, IH.2.1, ?_, ?_⟩
      · intro k hk
        refine IH.2.2.1 k (fun hm => hk ?_)
        rw [List.map_cons]
        exact List.mem_cons_of_mem _ hm
      · intro f hf
        rcases List.mem_cons.1 hf with rfl | hfr
        · constructor
          · intro hstatus hage hch
            exfalso
            rcases hinv with hbad | ⟨created, hca, hlt⟩ | hnone
            · exact hbad hstatus
            · exact hlt (hage created hca)
            · rw [hnone] at hch
              simp at hch
          · intro _
            rw [IH.2.2.1 f.1 henotin]
            exact helook
        · exact IH.2.2.2 f hfr
    | close ch =>
      have hinv := autoCloseStep_close_inv g cutoff s e ch hstep
      obtain ⟨hstatusE, ⟨createdE, hcaE, hltE⟩, hbindE⟩ := hinv
      obtain ⟨cid, hcid, hgetE⟩ : ∃ cid, e.2.channelId = some cid ∧
          getChannel g s cid = some ch := by
        cases hcc : e.2.channelId with
        | none => rw [hcc] at hbindE; cases hbindE
        | some cid =>
          rw [hcc] at hbindE
          exact ⟨cid, rfl, hbindE⟩
      have hchid : ch.id = cid := by
        have := List.find?_some hgetE
        simpa using this
      have hmemE : (e.1, e.2) ∈ s.threads := mem_of_threadLookup s e.1 e.2 helook
      have hfind : findThreadByChannel s g.id ch.id = some (e.1, e.2) := by
        rw [hchid]
        exact findThreadByChannel_of_entry s g e cid hndS hmemE heg hcid
          (hdist e (List.mem_cons_self e rest) cid hcid)
      have hspec := closeThread_found_spec env g ch g.meId
        (some "Auto-closed due to inactivity") s now e.1 e.2 hndS hfind
      obtain ⟨hlookE, hframe1, hshape, hkeys⟩ := hspec
      have hcc : (closeThread env g ch g.meId (some "Auto-closed due to inactivity")
          e.2 s now).1.createdChannels = s.createdChannels :=
        closeThread_createdChannels env g ch g.meId _ e.2 s now
      have hndS' : ((closeThread env g ch g.meId (some "Auto-closed due to inactivity")
          e.2 s now).1.threads.map Prod.fst).Nodup := by
        rw [hkeys]
        exact hndS
      have hC'' : ∀ f ∈ rest, f.1.1 = g.id ∧
          threadLookup (closeThread env g ch g.meId (some "Auto-closed due to inactivity")
            e.2 s now).1 f.1 = some f.2 := by
        intro f hf
        refine ⟨(hC' f hf).1, ?_⟩
        rw [hframe1 f.1 (hrestne f hf)]
        exact (hC' f hf).2
      have hdist'' : ∀ f ∈ rest, ∀ c : Nat, f.2.channelId = some c →
          ∀ f' ∈ (closeThread env g ch g.meId (some "Auto-closed due to inactivity")
            e.2 s now).1.threads, f'.1.1 = g.id → f'.1 ≠ f.1 → f'.2.channelId ≠ some c := by
        intro f hf c hc f' hf' hg' hne hcontra
        obtain ⟨f0, hf0, hk0, hch0⟩ := shape_transfer s.threads _ hshape f' hf'
        refine hdist' f hf c hc f0 hf0 ?_ ?_ ?_
        · rw [hk0]; exact hg'
        · rw [hk0]; exact hne
        · rw [hch0]; exact hcontra
      have IH := ih (closeThread env g ch g.meId (some "Auto-closed due to inactivity")
        e.2 s now).1 hndS' hndE' hC'' hdist'' hcreated'
      have hrw : autoCloseList env g cutoff now (e :: rest) s =
          ((autoCloseList env g cutoff now rest
              (closeThread env g ch g.meId (some "Auto-closed due to inactivity")
                e.2 s now).1).1,
           (closeThread env g ch g.meId (some "Auto-closed due to inactivity")
              e.2 s now).2 ++
             (autoCloseList env g cutoff now rest
               (closeThread env g ch g.meId (some "Auto-closed due to inactivity")
                 e.2 s now).1).2.1,
           (autoCloseList env g cutoff now rest
             (closeThread env g ch g.meId (some "Auto-closed due to inactivity")
               e.2 s now).1).2.2) := by
        simp only [autoCloseList, hstep]
      rw [hrw]
      refine ⟨IH.1, ?_, ?_, ?_⟩
      · rw [IH.2.1]
        exact hcc
      · intro k hk
        have hk1 : k ≠ e.1 := by
          intro hcontra
          apply hk
          rw [List.map_cons, hcontra]
          exact List.mem_cons_self _ _
        have hk2 : k ∉ rest.map Prod.fst := by
          intro hm
          apply hk
          rw [List.map_cons]
          exact List.mem_cons_of_mem _ hm
        rw [IH.2.2.1 k hk2]
        exact hframe1 k hk1
      · intro f hf
        rcases List.mem_cons.1 hf with rfl | hfr
        · constructor
          · intro _ _ _
            rw [IH.2.2.1 f.1 henotin]
            exact hlookE
          · intro hsp
            exfalso
            rcases hsp with hbad | ⟨t, hca2, hlt2⟩ | hnone
            · exact hbad hstatusE
            · rw [hcaE] at hca2
              cases hca2
              exact hlt2 hltE
            · rw [hnone] at hbindE
              cases hbindE
        · have hbindcongr : f.2.channelId.bind (fun cid =>
              getChannel g (closeThread env g ch g.meId
                (some "Auto-closed due to inactivity") e.2 s now).1 cid) =
              f.2.channelId.bind (fun cid => getChannel g s cid) :=
            bind_getChannel_congr g s _ hcc f.2.channelId
          have IHf := IH.2.2.2 f hfr
          constructor
          · intro hst2 hage2 hsome2
            refine IHf.1 hst2 hage2 ?_
            rw [hbindcongr]
            exact hsome2
          · intro hsp
            refine IHf.2 ?_
            rcases hsp with hbad | hmid | hnone
            · exact Or.inl hbad
            · exact Or.inr (Or.inl hmid)
            · refine Or.inr (Or.inr ?_)
              rw [hbindcongr]
              exact hnone

lemma triggerHook_spec {α : Type} (hooks : List (α → Except String Unit)) (p : α) :
    triggerHook hooks p =
      (hooks.map (fun h => h p), (hooks.map (fun h => h p)).filterMap errOf) := by
  induction hooks with
  | nil => rfl
  | cons h t ih =>
    simp only [triggerHook, ih, List.map_cons, List.filterMap_cons]
    cases hr : h p <;> simp [errOf]

lemma rlApply_fst (s : St) (key : Nat × Nat) (r : Bool × List Int) :
    (rlApply s key r).1 = r.1 := rfl

lemma rlApply_rateLimits (s : St) (key : Nat × Nat) (r : Bool × List Int) :
    (rlApply s key r).2.rateLimits key = r.2 := by
  simp [rlApply]

lemma isRateLimited_enabled (env : Env) (s : St) (userId guildId : Nat) (now : Int)
    (hen : (env.guildCfg guildId).rateLimiting.enabled = true) :
    isRateLimited env s userId guildId now =
      rlApply s (guildId, userId)
        (rlCheck (env.guildCfg guildId).rateLimiting.maxMessages
          (env.guildCfg guildId).rateLimiting.timeWindow
          (s.rateLimits (guildId, userId)) now) := by
  simp [isRateLimited, hen]

lemma rlRun_lift (env : Env) (userId guildId : Nat)
    (hen : (env.guildCfg guildId).rateLimiting.enabled = true)
    (times : List Int) : ∀ (s : St),
    (rlRun env userId guildId times s).1 =
      (rlCheckRun (env.guildCfg guildId).rateLimiting.maxMessages
        (env.guildCfg guildId).rateLimiting.timeWindow times
        (s.rateLimits (guildId, userId))).1 ∧
    (rlRun env userId guildId times s).2.rateLimits (guildId, userId) =
      (rlCheckRun (env.guildCfg guildId).rateLimiting.maxMessages
        (env.guildCfg guildId).rateLimiting.timeWindow times
        (s.rateLimits (guildId, userId))).2 := by
  induction times with
  | nil => intro s; exact ⟨rfl, rfl⟩
  | cons t ts ih =>
    intro s
    have hstep := isRateLimited_enabled env s userId guildId t hen
    have ihs := ih (isRateLimited env s userId guildId t).2
    rw [hstep, rlApply_rateLimits] at ihs
    constructor
    · simp only [rlRun, rlCheckRun, hstep, rlApply_fst, ihs.1]
    · simp only [rlRun, rlCheckRun, hstep, ihs.2]

/-! ## Claim theorems -/

/-- C2: evaluation of the code at scenario A (first message of a user with no
prior thread to an eligible, enabled guild with `require_server_member` off).
The result is Delivered, the `thread_created` hook fires before
`message_processed`, and the auto-response is triggered — but the code does
NOT persist exactly one Thread record with `message_count = 1`: line 443
regenerates the thread id, so the record `_create_new_thread` persisted keeps
`message_count = 0` and a second, default-initialised record under the fresh
id receives `message_count = 1`: two records for one conversation. -/
theorem C2_first_message_eval :
    run1.1 = RouteResult.delivered ∧
    run1.2.2 = [Effect.channelCreated 100 "modmail-alice-0001",
      Effect.hookFired "thread_created", Effect.forwardToThread 100,
      Effect.dmUser 42 DMKind.autoResponse, Effect.hookFired "message_processed",
      Effect.modlogCase "modmail_thread_created"] ∧
    run1.2.1.threads.length = 2 ∧
    threadLookup run1.2.1 (1, ⟨42, 1, 0⟩) =
      some { userId := some 42, channelId := some 100, guildId := some 1,
             createdAt := some 1000000, status := ThreadStatus.opened,
             participants := [42], messageCount := 0 } ∧
    threadLookup run1.2.1 (1, ⟨42, 1, 1⟩) = some { messageCount := 1 } := by
  decide

/-- C1: evaluation of the code at scenario B (second message while the thread
is open).  The same channel is reused, no second `thread_created` hook fires
and the result is Delivered — but no record ever reaches `message_count = 2`
(the freshly regenerated id reads a default record, so a third record with
`message_count = 1` appears instead) and the auto-response IS sent again,
because the default record's count is 0. -/
theorem C1_second_message_eval :
    run2.1 = RouteResult.delivered ∧
    run2.2.2 = [Effect.forwardToThread 100,
      Effect.dmUser 42 DMKind.autoResponse, Effect.hookFired "message_processed",
      Effect.modlogCase "modmail_thread_created"] ∧
    (Effect.hookFired "thread_created" ∉ run2.2.2) ∧
    (Effect.dmUser 42 DMKind.autoResponse ∈ run2.2.2) ∧
    run2.2.1.threads.length = 3 ∧
    run2.2.1.threads.all (fun e => e.2.messageCount ≠ 2) = true := by
  decide

/-- C6: evaluation of `_create_new_thread` at a successful fresh creation.
The Thread record is persisted with status open, `message_count = 0` and
participants `[userId]`, and the global counter increments — but the
conversation pointer receives the CHANNEL id (not the thread id), nothing is
ever appended to `thread_history`, and the UserRecord's `total_threads` and
`last_thread_at` stay at their defaults: those fields are read by
`modmail info`/`modmail logs` but never written anywhere. -/
theorem C6_create_thread_eval :
    createRun.1 = some 100 ∧
    threadLookup createRun.2.1 (1, ⟨42, 1, 0⟩) =
      some { userId := some 42, channelId := some 100, guildId := some 1,
             createdAt := some 777, status := ThreadStatus.opened,
             participants := [42], messageCount := 0 } ∧
    createRun.2.1.convs (1, 42) = { threadHistory := [], activeThread := some 100 } ∧
    createRun.2.1.users 42 = { totalThreads := 0, lastThreadAt := none } ∧
    createRun.2.1.totalThreadsCreated = 1 ∧
    createRun.2.2 = [Effect.channelCreated 100 "modmail-alice-0001",
      Effect.hookFired "thread_created"] := by
  decide

/-- C3 counterexample: `_close_thread` performs no status check, so a second
close of the already-closed fixture thread (closed at 500 with reason
"first" by staffer 7) does NOT return the record unchanged: it overwrites
`closed_at` to the new time 900, `close_reason` to "second" and `closed_by`
to the new closer 8 — contradicting the claim that the original close
metadata is preserved and no state transition is performed. -/
theorem C3_counterexample :
    threadLookup (closeThread envA gA chA 8 (some "second") d3 st3 900).1 (1, k3) ≠
      some d3 ∧
    (threadLookup (closeThread envA gA chA 8 (some "second") d3 st3 900).1 (1, k3)).map
      (fun d => d.closedAt) = some (some 900) ∧
    (threadLookup (closeThread envA gA chA 8 (some "second") d3 st3 900).1 (1, k3)).map
      (fun d => d.closedBy) = some (some 8) := by
  decide

/-- C3 (amended): a close of a Thread whose record is found by channel never
errors and always writes `status = closed` — so a second close of an
already-closed Thread still ends closed and does not raise — but it is not a
no-op: `closed_at`, `close_reason` and `closed_by` are overwritten with the
second close's values instead of preserving the original close metadata.
All other Thread records are untouched. -/
theorem C3_close_overwrites (env : Env) (g : Guild) (ch : Channel) (closerId : Nat)
    (reason : Option String) (s : St) (now : Int)
    (fe : (Nat × ThreadKey) × ThreadData)
    (hnd : (s.threads.map Prod.fst).Nodup)
    (hfind : findThreadByChannel s g.id ch.id = some fe) :
    threadLookup (closeThread env g ch closerId reason fe.2 s now).1 fe.1 =
      some (closePatch now closerId reason fe.2) ∧
    ∀ k, k ≠ fe.1 →
      threadLookup (closeThread env g ch closerId reason fe.2 s now).1 k =
        threadLookup s k := by
  have h := closeThread_found_spec env g ch closerId reason s now fe.1 fe.2 hnd hfind
  exact ⟨h.1, h.2.1⟩

/-- C3 witness: the amended theorem applied to the second close of the
fixture's already-closed thread. -/
theorem C3_witness :
    threadLookup (closeThread envA gA chA 8 (some "second") d3 st3 900).1 (1, k3) =
      some (closePatch 900 8 (some "second") d3) :=
  (C3_close_overwrites envA gA chA 8 (some "second") st3 900 ((1, k3), d3)
    (by decide) (by decide)).1

/-- C4: with rate limiting enabled, `maxMessages = 5` and a 300-second
window, five checks within the window return not-limited and each records
its timestamp; the sixth within the window returns limited and consumes no
slot (the stored list after six calls equals the list after five); a check
after the window has elapsed with no further calls returns not-limited; and
with rate limiting disabled the check always returns not-limited and leaves
the state untouched. -/
theorem C4_rate_limit_window (env : Env) (s : St) (userId guildId : Nat) (m : String)
    (hcfg : (env.guildCfg guildId).rateLimiting =
      { enabled := true, maxMessages := 5, timeWindow := 300, cooldownMessage := m })
    (h0 : s.rateLimits (guildId, userId) = []) :
    (rlRun env userId guildId [0, 60, 120, 180, 240, 299] s).1 =
      [false, false, false, false, false, true] ∧
    (rlRun env userId guildId [0, 60, 120, 180, 240] s).2.rateLimits (guildId, userId) =
      [0, 60, 120, 180, 240] ∧
    (rlRun env userId guildId [0, 60, 120, 180, 240, 299] s).2.rateLimits (guildId, userId) =
      [0, 60, 120, 180, 240] ∧
    (rlRun env userId guildId [0, 60, 120, 180, 240, 299, 600] s).1 =
      [false, false, false, false, false, true, false] ∧
    (∀ (env2 : Env) (s2 : St) (u2 g2 : Nat) (t2 : Int),
      (env2.guildCfg g2).rateLimiting.enabled = false →
      isRateLimited env2 s2 u2 g2 t2 = (false, s2)) := by
  have hen : (env.guildCfg guildId).rateLimiting.enabled = true := by rw [hcfg]
  have hmax : (env.guildCfg guildId).rateLimiting.maxMessages = 5 := by rw [hcfg]
  have hwin : (env.guildCfg guildId).rateLimiting.timeWindow = 300 := by rw [hcfg]
  have l1 := rlRun_lift env userId guildId hen [0, 60, 120, 180, 240, 299] s
  have l2 := rlRun_lift env userId guildId hen [0, 60, 120, 180, 240] s
  have l3 := rlRun_lift env userId guildId hen [0, 60, 120, 180, 240, 299, 600] s
  rw [hmax, hwin, h0] at l1 l2 l3
  refine ⟨?_, ?_, ?_, ?_, ?_⟩
  · rw [l1.1]; decide
  · rw [l2.2]; decide
  · rw [l1.2]; decide
  · rw [l3.1]; decide
  · intro env2 s2 u2 g2 t2 hdis
    simp [isRateLimited, hdis]

/-- C4 witness at the fixture guild (whose config carries the default
`enabled, 5, 300` rate limit) and the empty initial state. -/
theorem C4_witness :
    (rlRun envA 42 1 [0, 60, 120, 180, 240, 299] stA).1 =
      [false, false, false, false, false, true] :=
  (C4_rate_limit_window envA stA 42 1
    "You are sending messages too quickly. Please wait before sending another message."
    rfl rfl).1

/-- C5: for every event kind and registry, dispatch invokes exactly the
observers registered for that kind, sequentially in registration order (the
invocation trace is the pointwise map over the registration list, so a
raising observer never prevents later observers from running), the raised
errors are exactly what gets logged, and dispatch itself returns normally —
no observer failure propagates to the publisher. -/
theorem C5_hook_dispatch {α : Type} (registry : String → List (α → Except String Unit))
    (kind : String) (payload : α) :
    (triggerHookNamed registry kind payload).1 =
      (registry kind).map (fun h => h payload) ∧
    (triggerHookNamed registry kind payload).2 =
      ((registry kind).map (fun h => h payload)).filterMap errOf := by
  unfold triggerHookNamed
  rw [triggerHook_spec]
  exact ⟨rfl, rfl⟩

/-- C7: closing a thread under `require_close_reason = true` with an empty
reason (absent or the empty string) fails validation and leaves the state
completely unchanged: no close fields are written and the active-thread
pointer is untouched; the only output is the error reply. -/
theorem C7_empty_reason_validation (env : Env) (g : Guild) (ch : Channel)
    (closerId : Nat) (reason : Option String) (confirmed : Bool) (s : St) (now : Int)
    (td : ThreadData)
    (hch : isModmailChannel ch = true)
    (hdata : getThreadDataFromChannel s g.id ch.id = some td)
    (hreq : (env.guildCfg g.id).threadSettings.requireCloseReason = true)
    (hempty : reasonEmpty reason = true) :
    modmailClose env g ch closerId reason confirmed s now =
      (CloseResult.validationError, s,
        [Effect.ctxMessage "Please provide a reason for closing this thread."]) := by
  unfold modmailClose
  rw [hch, hdata]
  simp [hreq, hempty]

/-- C7 witness: the thread created by the fixture's first message, closed
with no reason under the default `require_close_reason = true`. -/
theorem C7_witness :
    modmailClose envA gA chA 7 none false run1.2.1 1000200 =
      (CloseResult.validationError, run1.2.1,
        [Effect.ctxMessage "Please provide a reason for closing this thread."]) :=
  C7_empty_reason_validation envA gA chA 7 none false run1.2.1 1000200 _
    (by rfl) rfl rfl rfl

/-- C8: a blocked user's inbound message is dropped silently: the route
result is Blocked, the state is completely unchanged (no Thread created, no
counters moved) and no effect of any kind is produced — no hook fires and
nothing is sent back to the user. -/
theorem C8_blocked_silent_drop (env : Env) (user : UserProfile) (s : St) (now : Int)
    (g : Guild) (grest : List Guild)
    (hbot : user.bot = false)
    (helig : eligibleGuilds env user now = g :: grest)
    (hblocked : isUserBlocked env s user.id (some g.id) = true) :
    onMessageWithoutCommand env user s now = (RouteResult.blocked, s, []) := by
  unfold onMessageWithoutCommand
  rw [hbot, helig]
  simp [hblocked]

/-- C8 witness: the fixture user, globally blocked, DMs the fixture guild. -/
theorem C8_witness :
    onMessageWithoutCommand envA alice stBlk 1000000 = (RouteResult.blocked, stBlk, []) :=
  C8_blocked_silent_drop envA alice stBlk 1000000 gA [] rfl rfl rfl

/-- C9 counterexample: one sweep over the reclaimer fixture (auto-close
3600s, sweep at t=10000).  The stale thread with a live channel is closed,
but (a) the recorded reason is "Auto-closed due to inactivity", not the
claim's quoted "auto-closed due to inactivity", and (b) the equally stale
open thread whose channel handle no longer resolves is NOT closed, so the
sweep does not close *every* open thread older than the threshold. -/
theorem C9_counterexample :
    (threadLookup (autoCloseThreads env9 st9 10000).1 (1, kOld)).map
        (fun d => d.closeReason) = some (some "Auto-closed due to inactivity") ∧
    ¬((threadLookup (autoCloseThreads env9 st9 10000).1 (1, kOld)).map
        (fun d => d.closeReason) = some (some "auto-closed due to inactivity")) ∧
    (threadLookup (autoCloseThreads env9 st9 10000).1 (1, kGhost)).map
        (fun d => d.status) = some ThreadStatus.opened ∧
    (threadLookup (autoCloseThreads env9 st9 10000).1 (1, kYoung)).map
        (fun d => d.status) = some ThreadStatus.opened ∧
    threadLookup (autoCloseThreads env9 st9 10000).1 (1, kDone) = some dDone := by
  decide

/-- C9 (amended): for an enabled guild with `auto_close_after = 3600`, under
well-formedness of the store (unique record keys; distinct channel ids among
the guild's records; every open record carries a creation time — records
produced by the message-count bug lack one and would abort the sweep), one
reclaimer pass closes every open Thread older than `now - 3600` WHOSE CHANNEL
HANDLE STILL RESOLVES, writing status closed, `closed_at = now`, reason
"Auto-closed due to inactivity" (capital A) and the bot member (`guild.me`)
as closer, and leaves every other record byte-for-byte untouched: non-open
threads, open threads younger than the threshold, and stale open threads
whose channel no longer resolves. -/
theorem C9_idle_reclaimer (env : Env) (g : Guild) (s : St) (now : Int)
    (hen : (env.guildCfg g.id).enabled = true)
    (hac : (env.guildCfg g.id).threadSettings.autoCloseAfter = 3600)
    (hkeys : (s.threads.map Prod.fst).Nodup)
    (hdist : ∀ e ∈ s.threads, e.1.1 = g.id → ∀ f ∈ s.threads, f.1.1 = g.id →
      f.1 ≠ e.1 → f.2.channelId = none ∨ f.2.channelId ≠ e.2.channelId)
    (hcreated : ∀ e ∈ s.threads, e.1.1 = g.id →
      e.2.status = ThreadStatus.opened → e.2.createdAt ≠ none) :
    (autoCloseGuild env g s now).2.2 = false ∧
    ∀ e ∈ s.threads, e.1.1 = g.id →
      ((e.2.status = ThreadStatus.opened →
        (∀ t : Int, e.2.createdAt = some t → t < now - 3600) →
        (e.2.channelId.bind (fun cid => getChannel g s cid)).isSome = true →
        threadLookup (autoCloseGuild env g s now).1 e.1 =
          some (closePatch now g.meId (some "Auto-closed due to inactivity") e.2)) ∧
      (e.2.status ≠ ThreadStatus.opened →
        threadLookup (autoCloseGuild env g s now).1 e.1 = some e.2) ∧
      (e.2.status = ThreadStatus.opened →
        (∀ t : Int, e.2.createdAt = some t → ¬ t < now - 3600) →
        threadLookup (autoCloseGuild env g s now).1 e.1 = some e.2) ∧
      (e.2.status = ThreadStatus.opened →
        e.2.channelId.bind (fun cid => getChannel g s cid) = none →
        threadLookup (autoCloseGuild env g s now).1 e.1 = some e.2)) := by
  have hrw : autoCloseGuild env g s now =
      autoCloseList env g (now - 3600) now
        (s.threads.filter (fun x => decide (x.1.1 = g.id))) s := by
    unfold autoCloseGuild
    simp only [hen, hac]
    norm_num
  have hndE : ((s.threads.filter (fun x => decide (x.1.1 = g.id))).map Prod.fst).Nodup :=
    List.Nodup.sublist (List.Sublist.map Prod.fst (List.filter_sublist s.threads)) hkeys
  have hCfil : ∀ e ∈ s.threads.filter (fun x => decide (x.1.1 = g.id)),
      e.1.1 = g.id ∧ threadLookup s e.1 = some e.2 := by
    intro e he
    rw [List.mem_filter] at he
    refine ⟨by simpa using he.2, ?_⟩
    unfold threadLookup
    rw [find?_key_of_mem_nodup s.threads e he.1 hkeys]
    rfl
  have hdistfil : ∀ e ∈ s.threads.filter (fun x => decide (x.1.1 = g.id)),
      ∀ c : Nat, e.2.channelId = some c → ∀ f ∈ s.threads, f.1.1 = g.id →
      f.1 ≠ e.1 → f.2.channelId ≠ some c := by
    intro e he c hc f hf hfg hne hcontra
    rw [List.mem_filter] at he
    have heg : e.1.1 = g.id := by simpa using he.2
    rcases hdist e he.1 heg f hf hfg hne with hnone | hdiff
    · rw [hcontra] at hnone
      cases hnone
    · apply hdiff
      rw [hcontra, hc]
  have hcreatedfil : ∀ e ∈ s.threads.filter (fun x => decide (x.1.1 = g.id)),
      e.2.status = ThreadStatus.opened → e.2.createdAt ≠ none := by
    intro e he
    rw [List.mem_filter] at he
    exact hcreated e he.1 (by simpa using he.2)
  have SPEC := autoCloseList_spec env g (now - 3600) now
    (s.threads.filter (fun x => decide (x.1.1 = g.id))) s
    hkeys hndE hCfil hdistfil hcreatedfil
  rw [hrw]
  refine ⟨SPEC.1, ?_⟩
  intro e he heg
  have hef : e ∈ s.threads.filter (fun x => decide (x.1.1 = g.id)) :=
    List.mem_filter.2 ⟨he, by simp [heg]⟩
  have hper := SPEC.2.2.2 e hef
  refine ⟨hper.1, ?_, ?_, ?_⟩
  · intro hst
    exact hper.2 (Or.inl hst)
  · intro hst hage
    have hne := hcreated e he heg hst
    cases hca : e.2.createdAt with
    | none => exact absurd hca hne
    | some t => exact hper.2 (Or.inr (Or.inl ⟨t, hca, hage t hca⟩))
  · intro _ hnone
    exact hper.2 (Or.inr (Or.inr hnone))

/-- C9 witness: the amended theorem applied to the reclaimer fixture; the
stale thread with the live channel ends closed with the capital-A reason and
the bot member as closer. -/
theorem C9_witness :
    threadLookup (autoCloseGuild env9 g9 st9 10000).1 (1, kOld) =
      some (closePatch 10000 99 (some "Auto-closed due to inactivity") dOld) := by
  have h := C9_idle_reclaimer env9 g9 st9 10000 rfl rfl (by decide) (by decide) (by decide)
  exact (h.2 ((1, kOld), dOld) (by decide) rfl).1 rfl
    (by
      intro t ht
      have h2 : (2800 : Int) = t := by simpa [dOld] using ht
      rw [← h2]
      decide)
    (by decide)

/-- C10: with `require_server_member = false` the eligibility check never
consults the member list or `min_server_age`: it succeeds exactly when the
account-age requirement passes, and its value is invariant under arbitrary
changes to `min_server_age`. -/
theorem C10_no_server_age_check (user : UserProfile) (g : Guild) (cfg : GuildConfig)
    (now : Int)
    (h : cfg.userRequirements.requireServerMember = false) :
    (checkUserRequirements user g cfg now = true ↔
      ¬(cfg.userRequirements.minAccountAge > 0 ∧
        now - user.createdAt < cfg.userRequirements.minAccountAge)) ∧
    (∀ msa : Int,
      checkUserRequirements user g
        { cfg with userRequirements := { cfg.userRequirements with minServerAge := msa } } now =
      checkUserRequirements user g cfg now) := by
  constructor
  · by_cases hage : cfg.userRequirements.minAccountAge > 0 ∧
        now - user.createdAt < cfg.userRequirements.minAccountAge
    · simp [checkUserRequirements, h, hage]
    · simp [checkUserRequirements, h, hage]
  · intro msa
    simp [checkUserRequirements, h]

/-- C10 witness: a user who is not a member of the guild at all, under a
policy with a huge `min_server_age` but `require_server_member = false`,
still passes eligibility because only account age is checked. -/
theorem C10_witness : checkUserRequirements alice gA cfg10 1000000 = true := by
  have hthm := C10_no_server_age_check alice gA cfg10 1000000 rfl
  exact hthm.1.mpr (by decide)

end Modmail
